import Mathlib

/-!
Shallow embedding of `src/metric_collector/collector.py` (class `MetricCollector`).

Python dict/list values that flow through the program are modelled by the
inductive type `PyVal`; dict lookup follows Python semantics (`in`, `.get`,
iteration over a dict yields its keys).  Numeric values (Python floats/ints)
are modelled by `ℚ`.  `round(x, 2)` and the `:.1f` format specifier are
modelled with `round` on `ℚ` (exact ties, where Python uses round-half-even,
do not occur at any input used below).
-/

namespace MetricsCollector

/-- Model of a Python value as it appears in the collector's metric dicts. -/
inductive PyVal where
  | none : PyVal
  | num : ℚ → PyVal
  | str : String → PyVal
  | list : List PyVal → PyVal
  | dict : List (String × PyVal) → PyVal

/-- Association lookup with decidable string equality (first binding wins). -/
def lookupStr {α : Type} : List (String × α) → String → Option α
  | [], _ => Option.none
  | (k', v) :: rest, k => if k = k' then some v else lookupStr rest k

namespace PyVal

/-- `d[k]` / membership lookup on a dict (first binding wins; `setKey` below
prepends, which matches Python's overwrite-on-assignment for lookups). -/
def lookup : PyVal → String → Option PyVal
  | dict kvs, k => lookupStr kvs k
  | _, _ => Option.none

/-- Python `k in d` for a dict (false on non-dicts, which never raise here
because the code guards with `isinstance`). -/
def contains (v : PyVal) (k : String) : Bool :=
  (v.lookup k).isSome

/-- Python `d.get(k, default)`.  All call sites in the claims apply it to
dicts; on a non-dict we return the default. -/
def getD (v : PyVal) (k : String) (default : PyVal) : PyVal :=
  (v.lookup k).getD default

/-- Python `d[k] = v` on a dict: prepending preserves lookup semantics of
assignment (the new binding shadows any older one). -/
def setKey : PyVal → String → PyVal → PyVal
  | dict kvs, k, v => dict ((k, v) :: kvs)
  | other, _, _ => other

/-- Python iteration `for x in v`: a list yields its elements, a dict yields
its keys (as strings).  The collector iterates only lists and dicts. -/
def iterElems : PyVal → List PyVal
  | list xs => xs
  | dict kvs => kvs.map (fun kv => str kv.1)
  | _ => []

/-- Python `isinstance(v, dict)`. -/
def isDict : PyVal → Bool
  | dict _ => true
  | _ => false

/-- Numeric view: all numeric comparisons in the program are applied to
values that are numbers (or to the numeric default `0` of `.get`). -/
def asNum : PyVal → ℚ
  | num q => q
  | _ => 0

/-- String view, for values interpolated into message text; every mountpoint
appearing in a snapshot (and the `'unknown'` default) is a string. -/
def asStr : PyVal → String
  | str s => s
  | _ => ""

/-- Python truthiness, used by `if not metrics.get('error')`. -/
def truthy : PyVal → Bool
  | none => false
  | num q => q != 0
  | str s => s != ""
  | list xs => !xs.isEmpty
  | dict kvs => !kvs.isEmpty

end PyVal

/-- Truthiness of an `Option PyVal` (Python `.get(k)` returns `None` when the
key is absent, and `None` is falsy). -/
def optTruthy : Option PyVal → Bool
  | Option.none => false
  | Option.some v => v.truthy

/-- Floor of a rational as an integer (`q.den` is positive, so Euclidean
division of the numerator by the denominator is the floor). -/
def ifloor (q : ℚ) : ℤ := Int.ediv q.num (q.den : ℤ)

/-- Rounding to the nearest integer, `⌊q + 1/2⌋`.  Models Python's `round`
on the values the program rounds (no exact .5 ties occur in the claims, so
the half-even/half-up difference is immaterial). -/
def iround (q : ℚ) : ℤ := ifloor (q + 1 / 2)

/-- Python `round(x, 2)`: round to 2 decimal places. -/
def round2 (q : ℚ) : ℚ := (iround (q * 100) : ℚ) / 100

/-- The integer of tenths shown by the `:.1f` format specifier: the message
text embeds the measured percentage rounded to one decimal place. -/
def tenths (q : ℚ) : ℤ := iround (10 * q)

/-- Relevant fields of the agent configuration (`self.config`), after the
defaults installed by `_load_config`. -/
structure Config where
  alertsEnabled : Bool
  cooldownMinutes : ℚ
  thresholds : List (String × ℚ)
  channels : List String
  maxRetries : ℕ
  retryDelay : ℚ
  includeNetwork : Bool
  includeProcesses : Bool
deriving Repr

/-- The content of one alert message string built in `check_alerts`.  The
message template is fixed per family, so two messages are equal exactly when
these components are equal: the family name, the target interpolated into the
text (the mountpoint, for disk alerts), the measured percentage as formatted
by `:.1f` (in tenths), and the threshold. -/
structure AlertMsg where
  family : String
  target : Option String
  percentTenths : ℤ
  threshold : ℚ
deriving DecidableEq, Repr

/-- The `for disk in metrics['disk']` loop of `check_alerts` (lines 342-348):
each iterated element contributes an alert when it is a dict, has a
`'percent'` key, and that percent strictly exceeds the disk threshold. -/
def diskAlertsAux (th : ℚ) : List PyVal → List AlertMsg
  | [] => []
  | d :: rest =>
      (if d.isDict ∧ d.contains "percent" then
        (if ((d.lookup "percent").getD PyVal.none).asNum > th then
          [AlertMsg.mk "disk"
            (some (d.getD "mountpoint" (PyVal.str "unknown")).asStr)
            (tenths ((d.lookup "percent").getD PyVal.none).asNum) th]
        else [])
      else []) ++ diskAlertsAux th rest

/-- One scalar-family block of `check_alerts` (the cpu / memory / swap
blocks at lines 328-337 and 351-354 share this structure): if the family is
configured in the thresholds and present in the snapshot, read
`metrics[fam].get('percent', 0)` and alert when it strictly exceeds the
threshold.  The message template is fixed per family, so `fam` identifies
it. -/
def famAlert (fam : String) (thresholds : List (String × ℚ)) (metrics : PyVal) : List AlertMsg :=
  match lookupStr thresholds fam, metrics.lookup fam with
  | some th, some sub =>
      let pc := (sub.getD "percent" (PyVal.num 0)).asNum
      if pc > th then [AlertMsg.mk fam Option.none (tenths pc) th] else []
  | _, _ => []

/-- The disk block of `check_alerts` (lines 340-348). -/
def diskAlert (thresholds : List (String × ℚ)) (metrics : PyVal) : List AlertMsg :=
  match lookupStr thresholds "disk", metrics.lookup "disk" with
  | some th, some dval => diskAlertsAux th dval.iterElems
  | _, _ => []

/-- `check_alerts` (collector.py lines 319-358), returning the list of alert
messages it triggers, in the order the code appends them (cpu, memory, disk
filesystems in iteration order, swap).  Each message is subsequently passed
to `_send_alert`. -/
def check_alerts (cfg : Config) (metrics : PyVal) : List AlertMsg :=
  if cfg.alertsEnabled = false then []
  else
    famAlert "cpu" cfg.thresholds metrics ++ famAlert "memory" cfg.thresholds metrics ++
      diskAlert cfg.thresholds metrics ++ famAlert "swap" cfg.thresholds metrics

/-! ## The snapshot builder: `collect_metrics` (lines 118-317)

Every psutil/OS call made inside the `try` block is a field of `Provider`,
an `Except` value whose `error` constructor models the call raising.  Reads
that cannot raise (the two `time.time()` clock reads, `datetime.utcnow`,
`uname`) are plain data fields. -/

/-- A raised Python exception, as observed by the `except` clauses: its
class name, message, and whether it is an instance of `OSError` (the class,
together with its subclass `PermissionError`, caught by the per-filesystem
handler at line 213). -/
structure PyExn where
  name : String
  message : String
  isOSError : Bool
deriving DecidableEq, Repr

/-- One entry of `psutil.disk_partitions()`. -/
structure Partition where
  device : String
  mountpoint : String
  fstype : String
  opts : String
deriving DecidableEq, Repr

/-- `psutil.disk_usage(mountpoint)`. -/
structure Usage where
  total : ℚ
  used : ℚ
  free : ℚ
deriving DecidableEq, Repr

/-- `psutil.virtual_memory()` (the attributes the code reads; the getattr
defaults for buffers/cached/shared are folded into the provider value). -/
structure VMem where
  total : ℚ
  used : ℚ
  free : ℚ
  available : ℚ
  percent : ℚ
  buffers : ℚ
  cached : ℚ
  shared : ℚ
deriving DecidableEq, Repr

/-- `psutil.swap_memory()`. -/
structure SwapMem where
  total : ℚ
  used : ℚ
  free : ℚ
  percent : ℚ
deriving DecidableEq, Repr

/-- The behaviour of the OS/psutil layer during one `collect_metrics` call.
Auxiliary values whose internal structure the claims never inspect
(`cpu_times`, I/O counter dicts, ...) are provider-shaped `PyVal`s. -/
structure Provider where
  hostname : String
  timestamp : String
  durationMs : ℚ
  cpuPercentPerCore : Except PyExn (List ℚ)
  cpuPercentOverall : Except PyExn ℚ
  cpuCountPhysical : Except PyExn PyVal
  cpuCountLogical : Except PyExn PyVal
  loadAverage : Except PyExn PyVal
  cpuTimes : Except PyExn PyVal
  cpuStats : Except PyExn PyVal
  virtualMemory : Except PyExn VMem
  swapMemory : Except PyExn SwapMem
  diskPartitions : Except PyExn (List Partition)
  diskUsage : String → Except PyExn Usage
  diskIoCounters : Except PyExn PyVal
  netIoCounters : Except PyExn PyVal
  topProcesses : Except PyExn PyVal

/-- The pseudo-filesystem types skipped at line 182. -/
def excludedFstypes : List String := ["tmpfs", "devtmpfs", "squashfs", "overlay"]

/-- The `cpu_data` dict (lines 133-141). -/
def cpuDict (perCore : List ℚ) (overall : ℚ) (phys logi loadavg times stats : PyVal) : PyVal :=
  PyVal.dict
    [("overall_percent", PyVal.num overall),
     ("per_core_percent", PyVal.list (perCore.map PyVal.num)),
     ("core_count_physical", phys),
     ("core_count_logical", logi),
     ("load_average", loadavg),
     ("cpu_times", times),
     ("cpu_stats", stats)]

/-- The `memory_data` dict (lines 147-161). -/
def memoryDict (m : VMem) : PyVal :=
  PyVal.dict
    [("total_bytes", PyVal.num m.total),
     ("used_bytes", PyVal.num m.used),
     ("free_bytes", PyVal.num m.free),
     ("available_bytes", PyVal.num m.available),
     ("percent_used", PyVal.num m.percent),
     ("buffers_bytes", PyVal.num m.buffers),
     ("cached_bytes", PyVal.num m.cached),
     ("shared_bytes", PyVal.num m.shared),
     ("total_gb", PyVal.num (round2 (m.total / 1024 ^ 3))),
     ("used_gb", PyVal.num (round2 (m.used / 1024 ^ 3))),
     ("free_gb", PyVal.num (round2 (m.free / 1024 ^ 3))),
     ("available_gb", PyVal.num (round2 (m.available / 1024 ^ 3)))]

/-- The `swap_data` dict (lines 164-173). -/
def swapDict (s : SwapMem) : PyVal :=
  PyVal.dict
    [("total_bytes", PyVal.num s.total),
     ("used_bytes", PyVal.num s.used),
     ("free_bytes", PyVal.num s.free),
     ("percent_used", PyVal.num s.percent),
     ("total_gb", PyVal.num (if s.total > 0 then round2 (s.total / 1024 ^ 3) else 0)),
     ("used_gb", PyVal.num (if s.used > 0 then round2 (s.used / 1024 ^ 3) else 0)),
     ("free_gb", PyVal.num (if s.free > 0 then round2 (s.free / 1024 ^ 3) else 0))]

/-- The per-filesystem `filesystem_data` dict (lines 188-209); psutil's
usage record has no inode attributes, so the three getattr defaults are
`None`. -/
def filesystemDict (part : Partition) (u : Usage) : PyVal :=
  PyVal.dict
    [("device", PyVal.str part.device),
     ("mountpoint", PyVal.str part.mountpoint),
     ("filesystem_type", PyVal.str part.fstype),
     ("mount_options", PyVal.str part.opts),
     ("total_bytes", PyVal.num u.total),
     ("used_bytes", PyVal.num u.used),
     ("free_bytes", PyVal.num u.free),
     ("percent_used", PyVal.num (if u.total > 0 then round2 (u.used / u.total * 100) else 0)),
     ("total_gb", PyVal.num (round2 (u.total / 1024 ^ 3))),
     ("used_gb", PyVal.num (round2 (u.used / 1024 ^ 3))),
     ("free_gb", PyVal.num (round2 (u.free / 1024 ^ 3))),
     ("inodes_total", PyVal.none),
     ("inodes_used", PyVal.none),
     ("inodes_free", PyVal.none)]

/-- The partition loop (lines 179-216): pseudo-filesystems are skipped, a
usage call raising `PermissionError`/`OSError` skips that one filesystem
(`continue`), and any other exception propagates out of the loop to the
outer handler. -/
def collectDisks (p : Provider) : List Partition → Except PyExn (List PyVal)
  | [] => Except.ok []
  | part :: rest =>
      if part.fstype ∈ excludedFstypes then collectDisks p rest
      else
        match p.diskUsage part.mountpoint with
        | Except.ok u =>
            match collectDisks p rest with
            | Except.ok l => Except.ok (filesystemDict part u :: l)
            | Except.error e => Except.error e
        | Except.error e => if e.isOSError then collectDisks p rest else Except.error e

/-- The `metrics` dict assembled at lines 233-244 from the successful
family collections. -/
def baseSnapshot (p : Provider) (perCore : List ℚ) (overall : ℚ)
    (phys logi loadavg times stats : PyVal) (mem : VMem) (swap : SwapMem)
    (disks : List PyVal) (ioStats : PyVal) : PyVal :=
  PyVal.dict
    [("timestamp", PyVal.str p.timestamp),
     ("hostname", PyVal.str p.hostname),
     ("collection_duration_ms", PyVal.num p.durationMs),
     ("cpu", cpuDict perCore overall phys logi loadavg times stats),
     ("memory", memoryDict mem),
     ("swap", swapDict swap),
     ("disk", PyVal.dict [("filesystems", PyVal.list disks), ("io_stats", ioStats)])]

/-- The optional-section decoration (lines 246-283): the network and
top-process keys are added only when enabled and their collection calls do
not raise (a raise is caught and the key simply omitted). -/
def decorate (cfg : Config) (p : Provider) (base : PyVal) : PyVal :=
  let withNet :=
    if cfg.includeNetwork then
      match p.netIoCounters with
      | Except.ok v => base.setKey "network" v
      | Except.error _ => base
    else base
  if cfg.includeProcesses then
    match p.topProcesses with
    | Except.ok v => withNet.setKey "top_processes" v
    | Except.error _ => withNet
  else withNet

/-- The body of `collect_metrics`'s `try` block (lines 123-295): a failing
provider call propagates as `error` unless a local handler catches it (the
filesystem loop, the disk-I/O, network and process sections). -/
def collectBody (cfg : Config) (p : Provider) : Except PyExn PyVal :=
  match p.cpuPercentPerCore with
  | Except.error e => Except.error e
  | Except.ok perCore =>
  match p.cpuPercentOverall with
  | Except.error e => Except.error e
  | Except.ok overall =>
  match p.cpuCountPhysical with
  | Except.error e => Except.error e
  | Except.ok phys =>
  match p.cpuCountLogical with
  | Except.error e => Except.error e
  | Except.ok logi =>
  match p.loadAverage with
  | Except.error e => Except.error e
  | Except.ok loadavg =>
  match p.cpuTimes with
  | Except.error e => Except.error e
  | Except.ok times =>
  match p.cpuStats with
  | Except.error e => Except.error e
  | Except.ok stats =>
  match p.virtualMemory with
  | Except.error e => Except.error e
  | Except.ok mem =>
  match p.swapMemory with
  | Except.error e => Except.error e
  | Except.ok swap =>
  match p.diskPartitions with
  | Except.error e => Except.error e
  | Except.ok parts =>
  match collectDisks p parts with
  | Except.error e => Except.error e
  | Except.ok disks =>
  Except.ok (decorate cfg p
    (baseSnapshot p perCore overall phys logi loadavg times stats mem swap disks
      (match p.diskIoCounters with
       | Except.ok v => v
       | Except.error _ => PyVal.none)))

/-- The minimal error snapshot returned by the outer handler
(lines 297-317). -/
def errorSnapshot (p : Provider) (e : PyExn) : PyVal :=
  PyVal.dict
    [("timestamp", PyVal.str p.timestamp),
     ("hostname", PyVal.str p.hostname),
     ("collection_duration_ms", PyVal.num p.durationMs),
     ("error", PyVal.dict
       [("type", PyVal.str e.name),
        ("message", PyVal.str e.message),
        ("occurred_at", PyVal.str p.timestamp)]),
     ("status", PyVal.str "error")]

/-- `collect_metrics` (lines 118-317): the `try` body's result, with every
escaping exception converted into the error snapshot. -/
def collect_metrics (cfg : Config) (p : Provider) : PyVal :=
  match collectBody cfg p with
  | Except.ok m => m
  | Except.error e => errorSnapshot p e

/-! ## `_send_alert` (lines 360-388): cooldown registry and dispatch -/

/-- `cooldown_key = hash(message)` (line 363): the key is a function of the
message text alone.  We model the hash by the message itself — equal
messages always collide, and distinct messages are modelled as having
distinct hashes. -/
def cooldownKey (message : AlertMsg) : AlertMsg := message

/-- Lookup in the cooldown registry `self.alert_cooldown`. -/
def lookupKey : List (AlertMsg × ℚ) → AlertMsg → Option ℚ
  | [], _ => Option.none
  | (k', t) :: rest, k => if k = k' then some t else lookupKey rest k

/-- Outcome of one `_send_alert` call: whether the alert was dispatched
past the cooldown check, the per-channel outcomes of the dispatch loop
(lines 380-388, one try/except per channel), and the updated registry. -/
structure AlertDispatch where
  dispatched : Bool
  channelResults : List (String × Bool)
  cooldown : List (AlertMsg × ℚ)
deriving Repr

/-- `_send_alert` (lines 360-388).  `now` is `datetime.utcnow()` in seconds;
`chFail c = true` models channel `c`'s send raising (the exception is caught
at line 387, so later channels still run).  The registry entry is written at
line 372, before any channel dispatch is attempted. -/
def send_alert (cfg : Config) (chFail : String → Bool) (cool : List (AlertMsg × ℚ))
    (now : ℚ) (message : AlertMsg) : AlertDispatch :=
  let key := cooldownKey message
  let cooldownMinutes := cfg.cooldownMinutes
  match lookupKey cool key with
  | some last =>
      if (now - last) / 60 < cooldownMinutes then
        AlertDispatch.mk false [] cool
      else
        AlertDispatch.mk true (cfg.channels.map (fun c => (c, !chFail c))) ((key, now) :: cool)
  | Option.none =>
      AlertDispatch.mk true (cfg.channels.map (fun c => (c, !chFail c))) ((key, now) :: cool)

/-! ## `send_metrics` (lines 411-519): the retry loop -/

/-- Classification of one `requests.post` + `raise_for_status` call, one
constructor per `except` clause of the loop body. -/
inductive PostOutcome where
  | success (status : ℕ)
  | timeout
  | connectionError
  | httpError (status : ℕ)
  | unexpected (e : PyExn)
deriving DecidableEq, Repr

/-- The retryable outcomes: caught, logged, and followed by the retry wait
(timeout / connection error / HTTP status error).  `unexpected` instead
breaks out of the loop. -/
def PostOutcome.retryable : PostOutcome → Bool
  | timeout => true
  | connectionError => true
  | httpError _ => true
  | _ => false

/-- Observable steps of one `send_metrics` call, in program order. -/
inductive Event where
  | collected (m : PyVal)
  | alertsChecked (triggered : List AlertMsg)
  | posted (payload : PyVal)
  | slept (d : ℚ)

def Event.isPosted : Event → Bool
  | posted _ => true
  | _ => false

def Event.isAlertsChecked : Event → Bool
  | alertsChecked _ => true
  | _ => false

def Event.isSlept : Event → Bool
  | slept _ => true
  | _ => false

/-- The transport payload built at lines 429-432. -/
def mkPayload (host : String) (m : PyVal) : PyVal :=
  PyVal.dict [("hostname", m.getD "hostname" (PyVal.str host)), ("metrics", m)]

/-- The start of one loop iteration (lines 419-452): collect a fresh
snapshot, evaluate alerts unless the snapshot is error-tagged, build the
payload and issue the POST. -/
def attemptBody (cfg : Config) (host : String) (m : PyVal) : List Event :=
  Event.collected m ::
    (if optTruthy (m.lookup "error") then [] else [Event.alertsChecked (check_alerts cfg m)]) ++
    [Event.posted (mkPayload host m)]

/-- The `for attempt in range(max_retries)` loop (lines 417-511), as a
recursion on the remaining iterations (`fuel`); `attempt` is the 0-based
Python loop variable, and callers maintain `attempt + fuel = maxRetries`.
A successful POST returns `true`; a retryable failure sleeps `retryDelay`
when `attempt < max_retries - 1` and continues; an unexpected error breaks
out.  Falling off the loop returns `false` (line 519). -/
def sendLoop (cfg : Config) (host : String) (prov : ℕ → Provider) (post : ℕ → PostOutcome) :
    ℕ → ℕ → Bool × List Event
  | _, 0 => (false, [])
  | attempt, fuel + 1 =>
      let m := collect_metrics cfg (prov attempt)
      let body := attemptBody cfg host m
      match post attempt with
      | PostOutcome.success _ => (true, body)
      | PostOutcome.unexpected _ => (false, body)
      | _ =>
          let sleepEv : List Event :=
            if attempt + 1 < cfg.maxRetries then [Event.slept cfg.retryDelay] else []
          let r := sendLoop cfg host prov post (attempt + 1) fuel
          (r.1, body ++ sleepEv ++ r.2)

/-- `send_metrics` (lines 411-519): runs the attempt loop from attempt 0.
`prov i` is the state of the OS when attempt `i` collects its snapshot;
`post i` is the outcome of attempt `i`'s POST. -/
def send_metrics (cfg : Config) (host : String) (prov : ℕ → Provider)
    (post : ℕ → PostOutcome) : Bool × List Event :=
  sendLoop cfg host prov post 0 cfg.maxRetries

/-- Number of POST attempts recorded in a trace. -/
def countPosted (tr : List Event) : ℕ := tr.countP Event.isPosted

/-- Number of retry-delay sleeps recorded in a trace. -/
def countSlept (tr : List Event) : ℕ := tr.countP Event.isSlept

/-- The payloads of the POST attempts, in order. -/
def postedPayloads : List Event → List PyVal
  | [] => []
  | Event.posted p :: rest => p :: postedPayloads rest
  | _ :: rest => postedPayloads rest

/-- The trace of `n` consecutive retryable-failing attempts starting at
attempt `lo`, each followed by the retry-delay sleep. -/
def failSegs (cfg : Config) (host : String) (prov : ℕ → Provider) : ℕ → ℕ → List Event
  | _, 0 => []
  | lo, n + 1 =>
      attemptBody cfg host (collect_metrics cfg (prov lo)) ++
        Event.slept cfg.retryDelay :: failSegs cfg host prov (lo + 1) n

/-- The filesystem records named by the spec: every non-excluded partition
whose usage call succeeds contributes its record, and a failing filesystem
is skipped while the rest proceed. -/
def keptRecords (p : Provider) : List Partition → List PyVal
  | [] => []
  | part :: rest =>
      if part.fstype ∈ excludedFstypes then keptRecords p rest
      else
        match p.diskUsage part.mountpoint with
        | Except.ok u => filesystemDict part u :: keptRecords p rest
        | Except.error _ => keptRecords p rest

/-- The list stored under `metrics['disk']['filesystems']` of a snapshot. -/
def filesystemsOf (m : PyVal) : List PyVal :=
  match m.lookup "disk" with
  | some d =>
      match d.lookup "filesystems" with
      | some (PyVal.list l) => l
      | _ => []
  | _ => []

/-! ## Shared concrete inputs -/

/-- A configuration with the end-to-end scenario's thresholds
`{cpu: 80, memory: 85, disk: 90, swap: 50}` and the documented defaults
(alerts enabled, 5-minute cooldown, `log` channel, 3 retries, 5s delay). -/
def agentConfig : Config :=
  Config.mk true 5 [("cpu", 80), ("memory", 85), ("disk", 90), ("swap", 50)] ["log"] 3 5 true false

/-- The end-to-end scenario snapshot: `cpu = 85.0`, `memory = 90.0`,
`swap = 60.0`, one filesystem `{mountpoint: "/", percent: 95.0}`. -/
def scenarioSnapshot : PyVal := PyVal.dict
  [("cpu", PyVal.dict [("percent", PyVal.num 85)]),
   ("memory", PyVal.dict [("percent", PyVal.num 90)]),
   ("swap", PyVal.dict [("percent", PyVal.num 60)]),
   ("disk", PyVal.list [PyVal.dict [("mountpoint", PyVal.str "/"), ("percent", PyVal.num 95)]])]

/-- A snapshot whose only family is a cpu record at `p` percent. -/
def cpuOnlySnap (p : ℚ) : PyVal := PyVal.dict [("cpu", PyVal.dict [("percent", PyVal.num p)])]

/-- A configuration whose only threshold family is `cpu` at 80. -/
def c4Config : Config := Config.mk true 5 [("cpu", 80)] ["log"] 3 5 true false

/-! ## Theorems -/

/-- C1: with thresholds `{cpu: 80, memory: 85, disk: 90, swap: 50}` and a
snapshot carrying `cpu = 85.0`, `memory = 90.0`, `swap = 60.0` and one
filesystem `{mountpoint: "/", percent: 95.0}`, `check_alerts` produces
exactly 4 alert events, one per breached family/filesystem, in source
order. -/
theorem check_alerts_scenario_four_events :
    check_alerts agentConfig scenarioSnapshot =
      [AlertMsg.mk "cpu" Option.none 850 80,
       AlertMsg.mk "memory" Option.none 900 85,
       AlertMsg.mk "disk" (some "/") 950 90,
       AlertMsg.mk "swap" Option.none 600 50] := by
  simp [check_alerts, famAlert, diskAlert, agentConfig, scenarioSnapshot, diskAlertsAux,
    PyVal.getD, PyVal.lookup, PyVal.asNum, PyVal.asStr, PyVal.iterElems, PyVal.isDict,
    PyVal.contains, lookupStr, tenths, iround, ifloor]
  norm_num

/-- C4 counterexample: two alerts for the same family (`cpu`) and the same
target, differing only in the measured percentage embedded in the message
(85.0% vs 86.0%), have *different* cooldown keys — the key is a function of
the free-text message, not of family + target. -/
theorem cooldown_key_not_family_target :
    check_alerts c4Config (cpuOnlySnap 85) = [AlertMsg.mk "cpu" Option.none 850 80] ∧
    check_alerts c4Config (cpuOnlySnap 86) = [AlertMsg.mk "cpu" Option.none 860 80] ∧
    (AlertMsg.mk "cpu" Option.none 850 80).family = (AlertMsg.mk "cpu" Option.none 860 80).family ∧
    (AlertMsg.mk "cpu" Option.none 850 80).target = (AlertMsg.mk "cpu" Option.none 860 80).target ∧
    cooldownKey (AlertMsg.mk "cpu" Option.none 850 80) ≠
      cooldownKey (AlertMsg.mk "cpu" Option.none 860 80) := by
  refine ⟨?_, ?_, rfl, rfl, ?_⟩
  · simp [check_alerts, famAlert, diskAlert, c4Config, cpuOnlySnap, PyVal.getD, PyVal.lookup,
      PyVal.asNum, lookupStr, tenths, iround, ifloor]
    norm_num
  · simp [check_alerts, famAlert, diskAlert, c4Config, cpuOnlySnap, PyVal.getD, PyVal.lookup,
      PyVal.asNum, lookupStr, tenths, iround, ifloor]
    norm_num
  · simp [cooldownKey]

/-- C4 amended: the cooldown key of a dispatched alert is derived from the
full message (`hash(message)`), which embeds the measured percentage; two
alerts for the same family and target share a key exactly when the
percentages format identically (equal tenths), not unconditionally. -/
theorem cooldown_key_from_message (cfg : Config) (th p1 p2 : ℚ)
    (hen : cfg.alertsEnabled = true) (hth : cfg.thresholds = [("cpu", th)])
    (h1 : p1 > th) (h2 : p2 > th) :
    check_alerts cfg (cpuOnlySnap p1) = [AlertMsg.mk "cpu" Option.none (tenths p1) th] ∧
    check_alerts cfg (cpuOnlySnap p2) = [AlertMsg.mk "cpu" Option.none (tenths p2) th] ∧
    (cooldownKey (AlertMsg.mk "cpu" Option.none (tenths p1) th) =
      cooldownKey (AlertMsg.mk "cpu" Option.none (tenths p2) th) ↔ tenths p1 = tenths p2) := by
  refine ⟨?_, ?_, ?_⟩
  · simp [check_alerts, famAlert, diskAlert, cpuOnlySnap, hen, hth, lookupStr, PyVal.lookup,
      PyVal.getD, PyVal.asNum, h1]
  · simp [check_alerts, famAlert, diskAlert, cpuOnlySnap, hen, hth, lookupStr, PyVal.lookup,
      PyVal.getD, PyVal.asNum, h2]
  · simp [cooldownKey, AlertMsg.mk.injEq]

/-- Witness for `cooldown_key_from_message` at `th = 80`, `p1 = 85`,
`p2 = 86`: the hypotheses hold and the two concrete keys differ because
`tenths 85 = 850 ≠ 860 = tenths 86`. -/
theorem cooldown_key_from_message_witness :
    c4Config.alertsEnabled = true ∧ c4Config.thresholds = [("cpu", 80)] ∧
    (85 : ℚ) > 80 ∧ (86 : ℚ) > 80 ∧
    (check_alerts c4Config (cpuOnlySnap 85) = [AlertMsg.mk "cpu" Option.none (tenths 85) 80] ∧
     check_alerts c4Config (cpuOnlySnap 86) = [AlertMsg.mk "cpu" Option.none (tenths 86) 80] ∧
     (cooldownKey (AlertMsg.mk "cpu" Option.none (tenths 85) 80) =
       cooldownKey (AlertMsg.mk "cpu" Option.none (tenths 86) 80) ↔ tenths 85 = tenths 86)) :=
  ⟨rfl, rfl, by norm_num, by norm_num,
   cooldown_key_from_message c4Config 80 85 86 rfl rfl (by norm_num) (by norm_num)⟩

/-- C5: `_send_alert` dispatches exactly when no prior fire is recorded for
the key or the elapsed time is at least the cooldown window; the registry
update is independent of channel failures (it happens before dispatch); on
fire the entry is set to the current time; a re-evaluation within the window
dispatches nothing and one after the window dispatches again. -/
theorem send_alert_cooldown_policy (cfg : Config) (chFail chFail' chFail'' : String → Bool)
    (cool : List (AlertMsg × ℚ)) (now now' now'' : ℚ) (msg : AlertMsg) :
    ((send_alert cfg chFail cool now msg).dispatched = true ↔
      (lookupKey cool (cooldownKey msg) = Option.none ∨
       ∃ last, lookupKey cool (cooldownKey msg) = some last ∧
         (now - last) / 60 ≥ cfg.cooldownMinutes)) ∧
    ((send_alert cfg chFail cool now msg).cooldown =
      (send_alert cfg chFail' cool now msg).cooldown) ∧
    ((send_alert cfg chFail cool now msg).dispatched = true →
      lookupKey (send_alert cfg chFail cool now msg).cooldown (cooldownKey msg) = some now) ∧
    ((send_alert cfg chFail cool now msg).dispatched = true →
      (now' - now) / 60 < cfg.cooldownMinutes →
      (send_alert cfg chFail' (send_alert cfg chFail cool now msg).cooldown now' msg).dispatched
        = false) ∧
    ((send_alert cfg chFail cool now msg).dispatched = true →
      (now'' - now) / 60 ≥ cfg.cooldownMinutes →
      (send_alert cfg chFail'' (send_alert cfg chFail cool now msg).cooldown now'' msg).dispatched
        = true) := by
  unfold send_alert cooldownKey
  cases hl : lookupKey cool msg with
  | none =>
      refine ⟨by simp [hl], by simp [hl], by simp [hl, lookupKey], ?_, ?_⟩
      · intro _ h2
        simp [hl, lookupKey, h2]
      · intro _ h2
        simp [hl, lookupKey, not_lt.mpr h2]
  | some last =>
      by_cases hc : (now - last) / 60 < cfg.cooldownMinutes
      · refine ⟨?_, by simp [hl, hc], by simp [hl, hc], by simp [hl, hc], by simp [hl, hc]⟩
        simp [hl, hc, not_le.mpr hc]
      · refine ⟨?_, by simp [hl, hc], by simp [hl, hc, lookupKey], ?_, ?_⟩
        · simp [hl, hc, not_lt.mp hc]
        · intro _ h2
          simp [hl, hc, lookupKey, h2]
        · intro _ h2
          simp [hl, hc, lookupKey, not_lt.mpr h2]

/-- One fully healthy provider behaviour; `d` is the measured collection
duration, letting two attempts observe different clock readings. -/
def okProviderAt (d : ℚ) : Provider :=
  Provider.mk "host1" "2026-01-01T00:00:00Z" d
    (Except.ok [10, 20]) (Except.ok 15) (Except.ok (PyVal.num 1)) (Except.ok (PyVal.num 2))
    (Except.ok PyVal.none) (Except.ok (PyVal.dict [])) (Except.ok PyVal.none)
    (Except.ok (VMem.mk 100 50 50 50 50 0 0 0)) (Except.ok (SwapMem.mk 100 10 90 10))
    (Except.ok [Partition.mk "/dev/sda1" "/" "ext4" "rw"])
    (fun _ => Except.ok (Usage.mk 1000 250 750))
    (Except.ok PyVal.none) (Except.ok (PyVal.dict [])) (Except.ok (PyVal.dict []))

/-- A healthy provider with a fixed duration reading. -/
def okProvider : Provider := okProviderAt 12

/-- A provider whose per-core CPU sampling raises, so the whole snapshot
build fails and the error snapshot is returned. -/
def badProvider : Provider :=
  Provider.mk "host1" "2026-01-01T00:00:00Z" 7
    (Except.error (PyExn.mk "RuntimeError" "cpu sampling failed" false)) (Except.ok 15)
    (Except.ok (PyVal.num 1)) (Except.ok (PyVal.num 2))
    (Except.ok PyVal.none) (Except.ok (PyVal.dict [])) (Except.ok PyVal.none)
    (Except.ok (VMem.mk 100 50 50 50 50 0 0 0)) (Except.ok (SwapMem.mk 100 10 90 10))
    (Except.ok [Partition.mk "/dev/sda1" "/" "ext4" "rw"])
    (fun _ => Except.ok (Usage.mk 1000 250 750))
    (Except.ok PyVal.none) (Except.ok (PyVal.dict [])) (Except.ok (PyVal.dict []))

/-- Witness for `send_alert_cooldown_policy`: starting from an empty
registry at time 0, the alert fires; a second evaluation 60 seconds later
(1 minute, within the 5-minute window) is suppressed even though the first
dispatch's channel failed; a third at 300 seconds (exactly 5 minutes)
fires again. -/
theorem send_alert_cooldown_policy_witness :
    (send_alert agentConfig (fun _ => true) [] 0 (AlertMsg.mk "cpu" Option.none 850 80)).dispatched
      = true ∧
    (send_alert agentConfig (fun _ => false)
      (send_alert agentConfig (fun _ => true) [] 0
        (AlertMsg.mk "cpu" Option.none 850 80)).cooldown 60
      (AlertMsg.mk "cpu" Option.none 850 80)).dispatched = false ∧
    (send_alert agentConfig (fun _ => false)
      (send_alert agentConfig (fun _ => true) [] 0
        (AlertMsg.mk "cpu" Option.none 850 80)).cooldown 300
      (AlertMsg.mk "cpu" Option.none 850 80)).dispatched = true := by
  have h := send_alert_cooldown_policy agentConfig (fun _ => true) (fun _ => false)
    (fun _ => false) [] 0 60 300 (AlertMsg.mk "cpu" Option.none 850 80)
  have hd : (send_alert agentConfig (fun _ => true) [] 0
      (AlertMsg.mk "cpu" Option.none 850 80)).dispatched = true :=
    h.1.mpr (Or.inl (by simp [lookupKey, cooldownKey]))
  refine ⟨hd, h.2.2.2.1 hd (by norm_num [agentConfig]), h.2.2.2.2 hd (by norm_num [agentConfig])⟩

/-! ### Trace bookkeeping lemmas for the retry loop -/

theorem countP_isPosted_attemptBody (cfg : Config) (host : String) (m : PyVal) :
    List.countP Event.isPosted (attemptBody cfg host m) = 1 := by
  unfold attemptBody
  cases optTruthy (m.lookup "error") <;> simp [Event.isPosted, List.countP_cons, List.countP_append]

theorem countP_isSlept_attemptBody (cfg : Config) (host : String) (m : PyVal) :
    List.countP Event.isSlept (attemptBody cfg host m) = 0 := by
  unfold attemptBody
  cases optTruthy (m.lookup "error") <;> simp [Event.isSlept, List.countP_cons, List.countP_append]

theorem postedPayloads_append (a b : List Event) :
    postedPayloads (a ++ b) = postedPayloads a ++ postedPayloads b := by
  induction a with
  | nil => rfl
  | cons e rest ih => cases e <;> simp [postedPayloads, ih]

theorem postedPayloads_attemptBody (cfg : Config) (host : String) (m : PyVal) :
    postedPayloads (attemptBody cfg host m) = [mkPayload host m] := by
  unfold attemptBody
  cases optTruthy (m.lookup "error") <;> simp [postedPayloads, postedPayloads_append]

theorem postedPayloads_slept (d : ℚ) (rest : List Event) :
    postedPayloads (Event.slept d :: rest) = postedPayloads rest := rfl

theorem retryable_elim {o : PostOutcome} (h : o.retryable = true) :
    o = PostOutcome.timeout ∨ o = PostOutcome.connectionError ∨
      ∃ s, o = PostOutcome.httpError s := by
  cases o <;> simp_all [PostOutcome.retryable]

theorem countP_isPosted_failSegs (cfg : Config) (host : String) (prov : ℕ → Provider) :
    ∀ n lo, List.countP Event.isPosted (failSegs cfg host prov lo n) = n := by
  intro n
  induction n with
  | zero => intro lo; simp [failSegs]
  | succ k ih =>
      intro lo
      simp [failSegs, List.countP_append, List.countP_cons, countP_isPosted_attemptBody,
        Event.isPosted, ih]
      try omega

theorem countP_isSlept_failSegs (cfg : Config) (host : String) (prov : ℕ → Provider) :
    ∀ n lo, List.countP Event.isSlept (failSegs cfg host prov lo n) = n := by
  intro n
  induction n with
  | zero => intro lo; simp [failSegs]
  | succ k ih =>
      intro lo
      simp [failSegs, List.countP_append, List.countP_cons, countP_isSlept_attemptBody,
        Event.isSlept, ih]
      try omega

/-- C6: with `maxRetries = 3` and a sink that always times out, the send
returns `false`, exactly 3 POST attempts occur with the trace ending at the
third attempt, and the fixed retry delay is slept exactly twice — between
consecutive attempts, not after the final one. -/
theorem send_metrics_timeout_exhaustion (cfg : Config) (host : String)
    (prov : ℕ → Provider) (post : ℕ → PostOutcome)
    (hmr : cfg.maxRetries = 3) (hpost : ∀ i, post i = PostOutcome.timeout) :
    send_metrics cfg host prov post =
      (false,
        attemptBody cfg host (collect_metrics cfg (prov 0)) ++ [Event.slept cfg.retryDelay] ++
        attemptBody cfg host (collect_metrics cfg (prov 1)) ++ [Event.slept cfg.retryDelay] ++
        attemptBody cfg host (collect_metrics cfg (prov 2))) ∧
    countPosted (send_metrics cfg host prov post).2 = 3 ∧
    countSlept (send_metrics cfg host prov post).2 = 2 := by
  have htr : send_metrics cfg host prov post =
      (false,
        attemptBody cfg host (collect_metrics cfg (prov 0)) ++ [Event.slept cfg.retryDelay] ++
        attemptBody cfg host (collect_metrics cfg (prov 1)) ++ [Event.slept cfg.retryDelay] ++
        attemptBody cfg host (collect_metrics cfg (prov 2))) := by
    simp [send_metrics, hmr, sendLoop, hpost]
  refine ⟨htr, ?_, ?_⟩ <;>
    simp [htr, countPosted, countSlept, List.countP_append, countP_isPosted_attemptBody,
      countP_isSlept_attemptBody, Event.isPosted, Event.isSlept]

/-- Witness for `send_metrics_timeout_exhaustion` with the default
3-retry configuration, a healthy provider and an always-timing-out sink. -/
theorem send_metrics_timeout_exhaustion_witness :
    agentConfig.maxRetries = 3 ∧
    (∀ i : ℕ, (fun _ : ℕ => PostOutcome.timeout) i = PostOutcome.timeout) ∧
    (send_metrics agentConfig "h" (fun _ => okProvider) (fun _ => PostOutcome.timeout) =
      (false,
        attemptBody agentConfig "h" (collect_metrics agentConfig okProvider) ++
          [Event.slept agentConfig.retryDelay] ++
        attemptBody agentConfig "h" (collect_metrics agentConfig okProvider) ++
          [Event.slept agentConfig.retryDelay] ++
        attemptBody agentConfig "h" (collect_metrics agentConfig okProvider)) ∧
     countPosted (send_metrics agentConfig "h" (fun _ => okProvider)
       (fun _ => PostOutcome.timeout)).2 = 3 ∧
     countSlept (send_metrics agentConfig "h" (fun _ => okProvider)
       (fun _ => PostOutcome.timeout)).2 = 2) :=
  ⟨rfl, fun _ => rfl,
   send_metrics_timeout_exhaustion agentConfig "h" (fun _ => okProvider)
     (fun _ => PostOutcome.timeout) rfl (fun _ => rfl)⟩

/-- The attempt loop when attempt `i0` hits an unexpected error after only
retryable failures: the loop runs the failing attempts with their sleeps,
then attempt `i0`'s body, and stops there (the `break` at line 503). -/
theorem sendLoop_unexpected_aborts (cfg : Config) (host : String) (prov : ℕ → Provider)
    (post : ℕ → PostOutcome) (e : PyExn) (i0 : ℕ) (hu : post i0 = PostOutcome.unexpected e)
    (hiM : i0 < cfg.maxRetries) :
    ∀ fuel lo, lo + fuel = cfg.maxRetries → lo ≤ i0 →
      (∀ j, lo ≤ j → j < i0 → (post j).retryable = true) →
      sendLoop cfg host prov post lo fuel =
        (false, failSegs cfg host prov lo (i0 - lo) ++
          attemptBody cfg host (collect_metrics cfg (prov i0))) := by
  intro fuel
  induction fuel with
  | zero => intro lo hsum hle _; omega
  | succ n ih =>
      intro lo hsum hle hretry
      rcases eq_or_lt_of_le hle with heq | hlt
      · subst heq
        simp [sendLoop, hu, Nat.sub_self, failSegs]
      · have hr := hretry lo le_rfl hlt
        have hguard : lo + 1 < cfg.maxRetries := by omega
        have hrec := ih (lo + 1) (by omega) (by omega) (fun j hj1 hj2 => hretry j (by omega) hj2)
        have hn : i0 - lo = (i0 - (lo + 1)) + 1 := by omega
        rcases retryable_elim hr with hpl | hpl | ⟨s, hpl⟩ <;>
          simp [sendLoop, hpl, hguard, hrec, hn, failSegs, List.append_assoc]

/-- C7: when an attempt fails with an unexpected error (neither timeout,
connection failure, nor HTTP status error), the loop aborts immediately —
the trace ends with that attempt's body, with no retry-delay sleep after it
and no further attempts — and `send_metrics` returns `false`. -/
theorem send_metrics_unexpected_error_aborts (cfg : Config) (host : String)
    (prov : ℕ → Provider) (post : ℕ → PostOutcome) (e : PyExn) (i0 : ℕ)
    (hiM : i0 < cfg.maxRetries)
    (hpre : ∀ j, j < i0 → (post j).retryable = true)
    (hu : post i0 = PostOutcome.unexpected e) :
    send_metrics cfg host prov post =
      (false, failSegs cfg host prov 0 i0 ++
        attemptBody cfg host (collect_metrics cfg (prov i0))) ∧
    countPosted (send_metrics cfg host prov post).2 = i0 + 1 ∧
    countSlept (send_metrics cfg host prov post).2 = i0 := by
  have htr := sendLoop_unexpected_aborts cfg host prov post e i0 hu hiM cfg.maxRetries 0
    (by omega) (by omega) (fun j _ hj2 => hpre j hj2)
  rw [Nat.sub_zero] at htr
  refine ⟨htr, ?_, ?_⟩ <;>
    simp [send_metrics, htr, countPosted, countSlept, List.countP_append,
      countP_isPosted_failSegs, countP_isSlept_failSegs, countP_isPosted_attemptBody,
      countP_isSlept_attemptBody]

/-- The POST behaviour used in the C7 witness: attempt 0 times out,
attempt 1 raises an unexpected `TypeError`. -/
def c7post : ℕ → PostOutcome :=
  fun i => if i = 0 then PostOutcome.timeout
    else PostOutcome.unexpected (PyExn.mk "TypeError" "boom" false)

/-- Witness for `send_metrics_unexpected_error_aborts`: one timeout, then
an unexpected error on attempt 1 of 3 — the run stops after 2 POSTs and
1 sleep even though a third attempt remained. -/
theorem send_metrics_unexpected_error_aborts_witness :
    1 < agentConfig.maxRetries ∧
    (∀ j, j < 1 → (c7post j).retryable = true) ∧
    c7post 1 = PostOutcome.unexpected (PyExn.mk "TypeError" "boom" false) ∧
    (send_metrics agentConfig "h" (fun _ => okProvider) c7post =
      (false, failSegs agentConfig "h" (fun _ => okProvider) 0 1 ++
        attemptBody agentConfig "h" (collect_metrics agentConfig okProvider)) ∧
     countPosted (send_metrics agentConfig "h" (fun _ => okProvider) c7post).2 = 2 ∧
     countSlept (send_metrics agentConfig "h" (fun _ => okProvider) c7post).2 = 1) :=
  ⟨by norm_num [agentConfig],
   (fun j hj => by
      have hj0 : j = 0 := by omega
      subst hj0
      rfl),
   rfl,
   send_metrics_unexpected_error_aborts agentConfig "h" (fun _ => okProvider) c7post
     (PyExn.mk "TypeError" "boom" false) 1 (by norm_num [agentConfig])
     (fun j hj => by
        have hj0 : j = 0 := by omega
        subst hj0
        rfl)
     rfl⟩

/-- The per-attempt providers of the C3 scenario: attempt `i` observes a
collection duration of `i` milliseconds, so consecutive snapshots differ. -/
def c3prov : ℕ → Provider := fun i => okProviderAt i

/-- The C3 sink: the first two POSTs time out, the third succeeds. -/
def c3post : ℕ → PostOutcome :=
  fun i => if i < 2 then PostOutcome.timeout else PostOutcome.success 200

/-- C3 amended: with `maxRetries = 3` and a sink failing twice then
succeeding, `send_metrics` returns `true` after exactly 3 POSTs — but the
snapshot is re-collected and the payload rebuilt on every attempt, so the
posted payload on attempt `i` is built from attempt `i`'s collection, not
from a single serialization shared by all attempts. -/
theorem send_metrics_fail_fail_success (cfg : Config) (host : String)
    (prov : ℕ → Provider) (post : ℕ → PostOutcome) (s : ℕ)
    (hmr : cfg.maxRetries = 3)
    (h0 : (post 0).retryable = true) (h1 : (post 1).retryable = true)
    (h2 : post 2 = PostOutcome.success s) :
    send_metrics cfg host prov post =
      (true,
        attemptBody cfg host (collect_metrics cfg (prov 0)) ++ [Event.slept cfg.retryDelay] ++
        attemptBody cfg host (collect_metrics cfg (prov 1)) ++ [Event.slept cfg.retryDelay] ++
        attemptBody cfg host (collect_metrics cfg (prov 2))) ∧
    countPosted (send_metrics cfg host prov post).2 = 3 ∧
    postedPayloads (send_metrics cfg host prov post).2 =
      [mkPayload host (collect_metrics cfg (prov 0)),
       mkPayload host (collect_metrics cfg (prov 1)),
       mkPayload host (collect_metrics cfg (prov 2))] := by
  have htr : send_metrics cfg host prov post =
      (true,
        attemptBody cfg host (collect_metrics cfg (prov 0)) ++ [Event.slept cfg.retryDelay] ++
        attemptBody cfg host (collect_metrics cfg (prov 1)) ++ [Event.slept cfg.retryDelay] ++
        attemptBody cfg host (collect_metrics cfg (prov 2))) := by
    rcases retryable_elim h0 with hp0 | hp0 | ⟨s0, hp0⟩ <;>
      rcases retryable_elim h1 with hp1 | hp1 | ⟨s1, hp1⟩ <;>
        simp [send_metrics, hmr, sendLoop, hp0, hp1, h2]
  refine ⟨htr, ?_, ?_⟩
  · simp [htr, countPosted, List.countP_append, countP_isPosted_attemptBody, Event.isPosted]
  · simp [htr, postedPayloads_append, postedPayloads_attemptBody, postedPayloads_slept]

/-- Witness for `send_metrics_fail_fail_success` on the concrete C3
scenario. -/
theorem send_metrics_fail_fail_success_witness :
    agentConfig.maxRetries = 3 ∧
    (c3post 0).retryable = true ∧ (c3post 1).retryable = true ∧
    c3post 2 = PostOutcome.success 200 ∧
    (send_metrics agentConfig "h" c3prov c3post =
      (true,
        attemptBody agentConfig "h" (collect_metrics agentConfig (c3prov 0)) ++
          [Event.slept agentConfig.retryDelay] ++
        attemptBody agentConfig "h" (collect_metrics agentConfig (c3prov 1)) ++
          [Event.slept agentConfig.retryDelay] ++
        attemptBody agentConfig "h" (collect_metrics agentConfig (c3prov 2))) ∧
     countPosted (send_metrics agentConfig "h" c3prov c3post).2 = 3 ∧
     postedPayloads (send_metrics agentConfig "h" c3prov c3post).2 =
       [mkPayload "h" (collect_metrics agentConfig (c3prov 0)),
        mkPayload "h" (collect_metrics agentConfig (c3prov 1)),
        mkPayload "h" (collect_metrics agentConfig (c3prov 2))]) :=
  ⟨rfl, rfl, rfl, rfl,
   send_metrics_fail_fail_success agentConfig "h" c3prov c3post 200 rfl rfl rfl rfl⟩

/-- C3 counterexample: in the fail-fail-success run the send succeeds after
3 POSTs, but the three posted payloads are *not* all identical — each
attempt re-collects the snapshot (here the duration reading differs), so no
single payload `P` is posted on every attempt, contradicting "serialized
once per send". -/
theorem send_metrics_payloads_differ :
    (send_metrics agentConfig "h" c3prov c3post).1 = true ∧
    countPosted (send_metrics agentConfig "h" c3prov c3post).2 = 3 ∧
    ¬ ∃ P, postedPayloads (send_metrics agentConfig "h" c3prov c3post).2 = [P, P, P] := by
  have htr : send_metrics agentConfig "h" c3prov c3post =
      (true,
        attemptBody agentConfig "h" (collect_metrics agentConfig (okProviderAt 0)) ++
          [Event.slept agentConfig.retryDelay] ++
        attemptBody agentConfig "h" (collect_metrics agentConfig (okProviderAt 1)) ++
          [Event.slept agentConfig.retryDelay] ++
        attemptBody agentConfig "h" (collect_metrics agentConfig (okProviderAt 2))) := by
    simp [send_metrics, agentConfig, sendLoop, c3post, c3prov]
  refine ⟨by simp [htr], ?_, ?_⟩
  · simp [htr, countPosted, List.countP_append, countP_isPosted_attemptBody, Event.isPosted]
  · rintro ⟨P, hP⟩
    rw [htr] at hP
    simp [postedPayloads_append, postedPayloads_attemptBody, postedPayloads_slept] at hP
    obtain ⟨hA, hB, -⟩ := hP
    have hAB : mkPayload "h" (collect_metrics agentConfig (okProviderAt 0)) =
        mkPayload "h" (collect_metrics agentConfig (okProviderAt 1)) := hA.trans hB.symm
    have hm := congrArg (fun v => PyVal.lookup v "metrics") hAB
    simp [mkPayload, PyVal.lookup, lookupStr] at hm
    have hd := congrArg (fun v => PyVal.lookup v "collection_duration_ms") hm
    simp [collect_metrics, collectBody, decorate, baseSnapshot, okProviderAt, collectDisks,
      excludedFstypes, agentConfig, PyVal.setKey, PyVal.lookup, lookupStr] at hd

theorem isAlertsChecked_collected (m : PyVal) : (Event.collected m).isAlertsChecked = false := rfl

theorem isAlertsChecked_posted (p : PyVal) : (Event.posted p).isAlertsChecked = false := rfl

theorem isAlertsChecked_slept (d : ℚ) : (Event.slept d).isAlertsChecked = false := rfl

/-- When every attempt's collection yields an error-tagged snapshot, no
iteration of the attempt loop ever records an alert evaluation, and every
started attempt still POSTs its (error) payload. -/
theorem sendLoop_error_tagged_no_alerts (cfg : Config) (host : String)
    (prov : ℕ → Provider) (post : ℕ → PostOutcome)
    (hall : ∀ i, optTruthy ((collect_metrics cfg (prov i)).lookup "error") = true) :
    ∀ fuel lo,
      (∀ ev ∈ (sendLoop cfg host prov post lo fuel).2, ev.isAlertsChecked = false) ∧
      (1 ≤ fuel →
        Event.posted (mkPayload host (collect_metrics cfg (prov lo))) ∈
          (sendLoop cfg host prov post lo fuel).2) := by
  intro fuel
  induction fuel with
  | zero => intro lo; simp [sendLoop]
  | succ n ih =>
      intro lo
      have hbody : attemptBody cfg host (collect_metrics cfg (prov lo)) =
          [Event.collected (collect_metrics cfg (prov lo)),
           Event.posted (mkPayload host (collect_metrics cfg (prov lo)))] := by
        unfold attemptBody
        simp [hall lo]
      cases hpl : post lo with
      | success s =>
          simp [sendLoop, hpl, hbody, isAlertsChecked_collected, isAlertsChecked_posted]
      | unexpected e =>
          simp [sendLoop, hpl, hbody, isAlertsChecked_collected, isAlertsChecked_posted]
      | timeout =>
          by_cases hg : lo + 1 < cfg.maxRetries <;>
            simp [sendLoop, hpl, hg, hbody, isAlertsChecked_collected, isAlertsChecked_posted,
              isAlertsChecked_slept] <;>
            exact (ih (lo + 1)).1
      | connectionError =>
          by_cases hg : lo + 1 < cfg.maxRetries <;>
            simp [sendLoop, hpl, hg, hbody, isAlertsChecked_collected, isAlertsChecked_posted,
              isAlertsChecked_slept] <;>
            exact (ih (lo + 1)).1
      | httpError s =>
          by_cases hg : lo + 1 < cfg.maxRetries <;>
            simp [sendLoop, hpl, hg, hbody, isAlertsChecked_collected, isAlertsChecked_posted,
              isAlertsChecked_slept] <;>
            exact (ih (lo + 1)).1

/-- C8: when collection produces error-tagged snapshots, the cycle skips
alert evaluation entirely (no `alertsChecked` event appears in the trace,
so zero alert events are produced) yet the snapshot is still handed to the
transmitter: the first attempt's POST carries the error snapshot as its
payload. -/
theorem error_snapshot_skips_alerts_still_sent (cfg : Config) (host : String)
    (prov : ℕ → Provider) (post : ℕ → PostOutcome)
    (hmr : 1 ≤ cfg.maxRetries)
    (hall : ∀ i, optTruthy ((collect_metrics cfg (prov i)).lookup "error") = true) :
    (∀ ev ∈ (send_metrics cfg host prov post).2, ev.isAlertsChecked = false) ∧
    Event.posted (mkPayload host (collect_metrics cfg (prov 0))) ∈
      (send_metrics cfg host prov post).2 := by
  have h := sendLoop_error_tagged_no_alerts cfg host prov post hall cfg.maxRetries 0
  exact ⟨h.1, h.2 hmr⟩

/-- Witness for `error_snapshot_skips_alerts_still_sent`: a provider whose
CPU sampling raises produces the error snapshot on every attempt; the run
records no alert evaluation but posts the error payload. -/
theorem error_snapshot_skips_alerts_witness :
    1 ≤ agentConfig.maxRetries ∧
    (∀ i : ℕ, optTruthy ((collect_metrics agentConfig ((fun _ => badProvider) i)).lookup "error")
      = true) ∧
    ((∀ ev ∈ (send_metrics agentConfig "h" (fun _ => badProvider)
        (fun _ => PostOutcome.timeout)).2, ev.isAlertsChecked = false) ∧
     Event.posted (mkPayload "h" (collect_metrics agentConfig badProvider)) ∈
      (send_metrics agentConfig "h" (fun _ => badProvider) (fun _ => PostOutcome.timeout)).2) := by
  have hall : ∀ i : ℕ,
      optTruthy ((collect_metrics agentConfig ((fun _ => badProvider) i)).lookup "error")
        = true := by
    intro i
    simp [collect_metrics, collectBody, badProvider, errorSnapshot, optTruthy, PyVal.truthy,
      PyVal.lookup, lookupStr]
  exact ⟨by norm_num [agentConfig], hall,
    error_snapshot_skips_alerts_still_sent agentConfig "h" (fun _ => badProvider)
      (fun _ => PostOutcome.timeout) (by norm_num [agentConfig]) hall⟩

/-! ### Lemmas on the snapshot builder's structure -/

theorem lookupStr_mem {α : Type} : ∀ (l : List (String × α)) (k : String) (v : α),
    lookupStr l k = some v → (k, v) ∈ l := by
  intro l
  induction l with
  | nil => intro k v h; simp [lookupStr] at h
  | cons kv rest ih =>
      intro k v h
      obtain ⟨k', v'⟩ := kv
      by_cases hk : k = k'
      · subst hk
        rw [lookupStr, if_pos rfl] at h
        injection h with h'
        subst h'
        exact List.mem_cons_self _ _
      · rw [lookupStr, if_neg hk] at h
        exact List.mem_cons_of_mem _ (ih k v h)

/-- The optional network / top-process keys do not shadow any other key of
a dict snapshot. -/
theorem lookup_decorate_of_ne (cfg : Config) (p : Provider) (b : PyVal) (hb : b.isDict = true)
    (k : String) (hk1 : k ≠ "network") (hk2 : k ≠ "top_processes") :
    (decorate cfg p b).lookup k = b.lookup k := by
  cases b <;> simp [PyVal.isDict] at hb
  unfold decorate
  cases cfg.includeNetwork <;> cases cfg.includeProcesses <;>
    cases p.netIoCounters <;> cases p.topProcesses <;>
      simp [PyVal.setKey, PyVal.lookup, lookupStr, hk1, hk2]

/-- A successful `collectBody` run determines the snapshot's shape: every
fatal-scope provider call returned `ok` and the result is the decorated base
snapshot of those values. -/
theorem collectBody_ok_shape (cfg : Config) (p : Provider) (m : PyVal)
    (h : collectBody cfg p = Except.ok m) :
    ∃ perCore overall phys logi loadavg times stats mem swap parts disks,
      p.cpuPercentPerCore = Except.ok perCore ∧
      p.virtualMemory = Except.ok mem ∧
      p.swapMemory = Except.ok swap ∧
      p.diskPartitions = Except.ok parts ∧
      collectDisks p parts = Except.ok disks ∧
      m = decorate cfg p (baseSnapshot p perCore overall phys logi loadavg times stats mem swap
        disks
        (match p.diskIoCounters with
         | Except.ok v => v
         | Except.error _ => PyVal.none)) := by
  unfold collectBody at h
  cases h1 : p.cpuPercentPerCore with
  | error e => simp only [h1] at h; exact Except.noConfusion h
  | ok perCore =>
  simp only [h1] at h
  cases h2 : p.cpuPercentOverall with
  | error e => simp only [h2] at h; exact Except.noConfusion h
  | ok overall =>
  simp only [h2] at h
  cases h3 : p.cpuCountPhysical with
  | error e => simp only [h3] at h; exact Except.noConfusion h
  | ok phys =>
  simp only [h3] at h
  cases h4 : p.cpuCountLogical with
  | error e => simp only [h4] at h; exact Except.noConfusion h
  | ok logi =>
  simp only [h4] at h
  cases h5 : p.loadAverage with
  | error e => simp only [h5] at h; exact Except.noConfusion h
  | ok loadavg =>
  simp only [h5] at h
  cases h6 : p.cpuTimes with
  | error e => simp only [h6] at h; exact Except.noConfusion h
  | ok times =>
  simp only [h6] at h
  cases h7 : p.cpuStats with
  | error e => simp only [h7] at h; exact Except.noConfusion h
  | ok stats =>
  simp only [h7] at h
  cases h8 : p.virtualMemory with
  | error e => simp only [h8] at h; exact Except.noConfusion h
  | ok mem =>
  simp only [h8] at h
  cases h9 : p.swapMemory with
  | error e => simp only [h9] at h; exact Except.noConfusion h
  | ok swap =>
  simp only [h9] at h
  cases h10 : p.diskPartitions with
  | error e => simp only [h10] at h; exact Except.noConfusion h
  | ok parts =>
  simp only [h10] at h
  cases h11 : collectDisks p parts with
  | error e => simp only [h11] at h; exact Except.noConfusion h
  | ok disks =>
  simp only [h11] at h
  injection h with h'
  exact ⟨perCore, overall, phys, logi, loadavg, times, stats, mem, swap, parts, disks,
    rfl, rfl, rfl, rfl, h11, h'.symm⟩

/-- A scalar family whose sub-record has no `'percent'` key never alerts
under non-negative thresholds: `.get('percent', 0)` falls back to 0. -/
theorem famAlert_nil_of_no_percent (fam : String) (thresholds : List (String × ℚ))
    (metrics sub : PyVal) (hM : metrics.lookup fam = some sub)
    (hp : sub.lookup "percent" = Option.none)
    (hnn : ∀ kv ∈ thresholds, 0 ≤ kv.2) :
    famAlert fam thresholds metrics = [] := by
  unfold famAlert
  cases hc : lookupStr thresholds fam with
  | none => simp
  | some th =>
      have h0 : ¬((0 : ℚ) > th) := not_lt.mpr (hnn _ (lookupStr_mem _ _ _ hc))
      simp [hM, PyVal.getD, hp, PyVal.asNum, h0]

theorem diskAlertsAux_nil_of_no_dict (th : ℚ) :
    ∀ xs : List PyVal, (∀ x ∈ xs, x.isDict = false) → diskAlertsAux th xs = [] := by
  intro xs
  induction xs with
  | nil => intro _; rfl
  | cons x rest ih =>
      intro hall
      rw [diskAlertsAux]
      rw [ih (fun y hy => hall y (List.mem_cons_of_mem _ hy))]
      simp [hall x (List.mem_cons_self _ _)]

/-- Iterating a dict-valued `metrics['disk']` yields its keys — strings,
never dicts — so the disk block alerts on nothing. -/
theorem diskAlert_nil_of_dict (thresholds : List (String × ℚ)) (metrics : PyVal)
    (kvs : List (String × PyVal)) (hM : metrics.lookup "disk" = some (PyVal.dict kvs)) :
    diskAlert thresholds metrics = [] := by
  unfold diskAlert
  cases hc : lookupStr thresholds "disk" with
  | none => simp
  | some th =>
      rw [hM]
      have : ∀ x ∈ (PyVal.dict kvs).iterElems, x.isDict = false := by
        intro x hx
        simp [PyVal.iterElems] at hx
        obtain ⟨a, ha, hax⟩ := hx
        simp [← hax, PyVal.isDict]
      simp [diskAlertsAux_nil_of_no_dict th _ this]

/-- C2: on every snapshot produced by the success path of `collect_metrics`
and every thresholds mapping with non-negative values, `check_alerts`
triggers nothing: the evaluator reads `'percent'` where the builder wrote
`'overall_percent'` / `'percent_used'` (defaulting to 0), and iterating the
dict-shaped `metrics['disk']` yields the strings `'filesystems'` and
`'io_stats'`, so no filesystem is ever examined. -/
theorem check_alerts_silent_on_collected (cfg : Config) (p : Provider) (m : PyVal)
    (hok : collectBody cfg p = Except.ok m)
    (hnonneg : ∀ kv ∈ cfg.thresholds, 0 ≤ kv.2) :
    check_alerts cfg m = [] := by
  obtain ⟨perCore, overall, phys, logi, loadavg, times, stats, mem, swap, parts, disks,
    h1, h8, h9, h10, h11, hm⟩ := collectBody_ok_shape cfg p m hok
  have hisd : (baseSnapshot p perCore overall phys logi loadavg times stats mem swap disks
      (match p.diskIoCounters with
       | Except.ok v => v
       | Except.error _ => PyVal.none)).isDict = true := rfl
  have hlook : ∀ k, k ≠ "network" → k ≠ "top_processes" →
      m.lookup k = (baseSnapshot p perCore overall phys logi loadavg times stats mem swap disks
        (match p.diskIoCounters with
         | Except.ok v => v
         | Except.error _ => PyVal.none)).lookup k := by
    intro k hk1 hk2
    rw [hm]
    exact lookup_decorate_of_ne cfg p _ hisd k hk1 hk2
  have hcpu : m.lookup "cpu" = some (cpuDict perCore overall phys logi loadavg times stats) := by
    rw [hlook "cpu" (by decide) (by decide)]
    simp [baseSnapshot, PyVal.lookup, lookupStr]
  have hmem : m.lookup "memory" = some (memoryDict mem) := by
    rw [hlook "memory" (by decide) (by decide)]
    simp [baseSnapshot, PyVal.lookup, lookupStr]
  have hswap : m.lookup "swap" = some (swapDict swap) := by
    rw [hlook "swap" (by decide) (by decide)]
    simp [baseSnapshot, PyVal.lookup, lookupStr]
  have hdisk : m.lookup "disk" =
      some (PyVal.dict [("filesystems", PyVal.list disks),
        ("io_stats", (match p.diskIoCounters with
          | Except.ok v => v
          | Except.error _ => PyVal.none))]) := by
    rw [hlook "disk" (by decide) (by decide)]
    simp [baseSnapshot, PyVal.lookup, lookupStr]
  unfold check_alerts
  cases hen : cfg.alertsEnabled
  · simp
  · simp only [Bool.true_eq_false, if_false]
    rw [famAlert_nil_of_no_percent "cpu" _ _ _ hcpu (by simp [cpuDict, PyVal.lookup, lookupStr])
        hnonneg,
      famAlert_nil_of_no_percent "memory" _ _ _ hmem
        (by simp [memoryDict, PyVal.lookup, lookupStr]) hnonneg,
      famAlert_nil_of_no_percent "swap" _ _ _ hswap
        (by simp [swapDict, PyVal.lookup, lookupStr]) hnonneg,
      diskAlert_nil_of_dict _ _ _ hdisk]
    rfl

/-- The healthy provider's collection succeeds, and `collect_metrics`
returns exactly the successful body's snapshot. -/
theorem collectBody_okProvider :
    collectBody agentConfig okProvider = Except.ok (collect_metrics agentConfig okProvider) := by
  simp [collect_metrics, collectBody, okProvider, okProviderAt, collectDisks, excludedFstypes]

/-- Witness for `check_alerts_silent_on_collected`: a fully healthy
collection under the scenario thresholds (memory at 50% against an 85%
threshold would alert if the key matched — it does not) triggers nothing. -/
theorem check_alerts_silent_witness :
    collectBody agentConfig okProvider = Except.ok (collect_metrics agentConfig okProvider) ∧
    (∀ kv ∈ agentConfig.thresholds, 0 ≤ kv.2) ∧
    check_alerts agentConfig (collect_metrics agentConfig okProvider) = [] := by
  have hnn : ∀ kv ∈ agentConfig.thresholds, 0 ≤ kv.2 := by
    intro kv hkv
    simp [agentConfig] at hkv
    rcases hkv with h | h | h | h <;> rw [h] <;> norm_num
  exact ⟨collectBody_okProvider, hnn,
    check_alerts_silent_on_collected agentConfig okProvider _ collectBody_okProvider hnn⟩

/-- A successful pass over the partitions keeps exactly the non-excluded
filesystems whose usage call succeeded, in order. -/
theorem collectDisks_ok_eq_kept (p : Provider) :
    ∀ parts l, collectDisks p parts = Except.ok l → l = keptRecords p parts := by
  intro parts
  induction parts with
  | nil =>
      intro l h
      rw [collectDisks] at h
      injection h with h'
      rw [keptRecords, h'.symm]
  | cons part rest ih =>
      intro l h
      by_cases hex : part.fstype ∈ excludedFstypes
      · rw [collectDisks, if_pos hex] at h
        rw [keptRecords, if_pos hex]
        exact ih l h
      · rw [collectDisks, if_neg hex] at h
        rw [keptRecords, if_neg hex]
        cases hu : p.diskUsage part.mountpoint with
        | ok u =>
            simp only [hu] at h ⊢
            cases hrest : collectDisks p rest with
            | ok l2 =>
                simp only [hrest] at h
                injection h with h'
                rw [h'.symm, ih l2 hrest]
            | error e =>
                simp only [hrest] at h
                exact Except.noConfusion h
        | error e =>
            simp only [hu] at h ⊢
            by_cases hos : e.isOSError
            · rw [if_pos hos] at h
              exact ih l h
            · rw [if_neg hos] at h
              exact Except.noConfusion h

theorem errorSnapshot_tagged (p : Provider) (e : PyExn) :
    optTruthy ((errorSnapshot p e).lookup "error") = true := by
  simp [errorSnapshot, PyVal.lookup, lookupStr, optTruthy, PyVal.truthy]

/-- C9: `collect_metrics` never raises — for every provider behaviour it
returns a value, which is either the error snapshot of the exception that
escaped the body (error-tagged under the `'error'` key), or the successful
snapshot, which carries no `'error'` key and whose filesystems are exactly
the non-excluded partitions whose usage call succeeded: a failing
filesystem is omitted while the rest proceed. -/
theorem collect_metrics_never_raises (cfg : Config) (p : Provider) :
    (∃ e, collectBody cfg p = Except.error e ∧
       collect_metrics cfg p = errorSnapshot p e ∧
       optTruthy ((collect_metrics cfg p).lookup "error") = true) ∨
    (collectBody cfg p = Except.ok (collect_metrics cfg p) ∧
       (collect_metrics cfg p).lookup "error" = Option.none ∧
       ∃ parts, p.diskPartitions = Except.ok parts ∧
         filesystemsOf (collect_metrics cfg p) = keptRecords p parts) := by
  cases hres : collectBody cfg p with
  | error e =>
      left
      have hcm : collect_metrics cfg p = errorSnapshot p e := by
        simp [collect_metrics, hres]
      exact ⟨e, rfl, hcm, by rw [hcm]; exact errorSnapshot_tagged p e⟩
  | ok m =>
      right
      have hcm : collect_metrics cfg p = m := by simp [collect_metrics, hres]
      obtain ⟨perCore, overall, phys, logi, loadavg, times, stats, mem, swap, parts, disks,
        h1, h8, h9, h10, h11, hm⟩ := collectBody_ok_shape cfg p m hres
      have hisd : (baseSnapshot p perCore overall phys logi loadavg times stats mem swap disks
          (match p.diskIoCounters with
           | Except.ok v => v
           | Except.error _ => PyVal.none)).isDict = true := rfl
      refine ⟨by rw [hcm], ?_, parts, h10, ?_⟩
      · rw [hcm, hm, lookup_decorate_of_ne cfg p _ hisd "error" (by decide) (by decide)]
        simp [baseSnapshot, PyVal.lookup, lookupStr]
      · rw [hcm, hm]
        unfold filesystemsOf
        rw [lookup_decorate_of_ne cfg p _ hisd "disk" (by decide) (by decide)]
        have hdl : (baseSnapshot p perCore overall phys logi loadavg times stats mem swap disks
            (match p.diskIoCounters with
             | Except.ok v => v
             | Except.error _ => PyVal.none)).lookup "disk" =
            some (PyVal.dict [("filesystems", PyVal.list disks),
              ("io_stats", (match p.diskIoCounters with
                | Except.ok v => v
                | Except.error _ => PyVal.none))]) := by
          simp [baseSnapshot, PyVal.lookup, lookupStr]
        rw [hdl]
        simpa [PyVal.lookup, lookupStr] using collectDisks_ok_eq_kept p parts disks h11

theorem mem_keptRecords (p : Provider) :
    ∀ parts fs, fs ∈ keptRecords p parts →
      ∃ part u, p.diskUsage part.mountpoint = Except.ok u ∧ fs = filesystemDict part u := by
  intro parts
  induction parts with
  | nil => intro fs h; rw [keptRecords] at h; exact absurd h (List.not_mem_nil fs)
  | cons part rest ih =>
      intro fs h
      by_cases hex : part.fstype ∈ excludedFstypes
      · rw [keptRecords, if_pos hex] at h
        exact ih fs h
      · rw [keptRecords, if_neg hex] at h
        cases hu : p.diskUsage part.mountpoint with
        | ok u =>
            rw [hu] at h
            rcases List.mem_cons.mp h with h1 | h2
            · exact ⟨part, u, hu, h1⟩
            · exact ih fs h2
        | error e =>
            rw [hu] at h
            exact ih fs h

/-- C10: in every snapshot built by the success path, each filesystem
record's `percent_used` is `round(used / total * 100, 2)` when
`total > 0` and `0` when `total = 0`, where `total`/`used` are the record's
own `total_bytes`/`used_bytes` fields. -/
theorem percent_used_formula (cfg : Config) (p : Provider) (m fs : PyVal) (t u : ℚ)
    (hok : collectBody cfg p = Except.ok m) (hfs : fs ∈ filesystemsOf m)
    (ht : fs.lookup "total_bytes" = some (PyVal.num t))
    (hu : fs.lookup "used_bytes" = some (PyVal.num u)) :
    fs.lookup "percent_used" = some (PyVal.num (if t > 0 then round2 (u / t * 100) else 0)) := by
  have hcm : collect_metrics cfg p = m := by simp [collect_metrics, hok]
  rcases collect_metrics_never_raises cfg p with ⟨e, he, -, -⟩ | ⟨-, -, parts, -, hkept⟩
  · rw [hok] at he; exact Except.noConfusion he
  · rw [hcm] at hkept
    rw [hkept] at hfs
    obtain ⟨part, usage, hud, rfl⟩ := mem_keptRecords p parts fs hfs
    rw [filesystemDict] at ht hu ⊢
    simp [PyVal.lookup, lookupStr] at ht hu
    rw [← ht, ← hu]
    simp [PyVal.lookup, lookupStr]

/-- Witness for `percent_used_formula`: the healthy provider's single
filesystem (1000 total, 250 used) carries `percent_used` per the formula,
and the formula evaluates to 25 (% used). -/
theorem percent_used_formula_witness :
    collectBody agentConfig okProvider = Except.ok (collect_metrics agentConfig okProvider) ∧
    filesystemDict (Partition.mk "/dev/sda1" "/" "ext4" "rw") (Usage.mk 1000 250 750) ∈
      filesystemsOf (collect_metrics agentConfig okProvider) ∧
    (filesystemDict (Partition.mk "/dev/sda1" "/" "ext4" "rw")
      (Usage.mk 1000 250 750)).lookup "total_bytes" = some (PyVal.num 1000) ∧
    (filesystemDict (Partition.mk "/dev/sda1" "/" "ext4" "rw")
      (Usage.mk 1000 250 750)).lookup "used_bytes" = some (PyVal.num 250) ∧
    (filesystemDict (Partition.mk "/dev/sda1" "/" "ext4" "rw")
      (Usage.mk 1000 250 750)).lookup "percent_used" =
      some (PyVal.num (if (1000 : ℚ) > 0 then round2 (250 / 1000 * 100) else 0)) ∧
    round2 ((250 : ℚ) / 1000 * 100) = 25 := by
  have hmem : filesystemDict (Partition.mk "/dev/sda1" "/" "ext4" "rw")
      (Usage.mk 1000 250 750) ∈ filesystemsOf (collect_metrics agentConfig okProvider) := by
    simp [filesystemsOf, collect_metrics, collectBody, okProvider, okProviderAt, collectDisks,
      excludedFstypes, decorate, baseSnapshot, agentConfig, PyVal.setKey, PyVal.lookup, lookupStr]
  have ht : (filesystemDict (Partition.mk "/dev/sda1" "/" "ext4" "rw")
      (Usage.mk 1000 250 750)).lookup "total_bytes" = some (PyVal.num 1000) := by
    simp [filesystemDict, PyVal.lookup, lookupStr]
  have hu : (filesystemDict (Partition.mk "/dev/sda1" "/" "ext4" "rw")
      (Usage.mk 1000 250 750)).lookup "used_bytes" = some (PyVal.num 250) := by
    simp [filesystemDict, PyVal.lookup, lookupStr]
  refine ⟨collectBody_okProvider, hmem, ht, hu,
    percent_used_formula agentConfig okProvider _ _ 1000 250 collectBody_okProvider hmem ht hu,
    ?_⟩
  norm_num [round2, iround, ifloor]

end MetricsCollector
